import Mathlib

/-!
Verification of the GitHub repository-provisioning tool
(`github_client.py`, `repo_creator.py`, `config.py`, `main.py`)
against its natural-language specification.

The Python code is shallowly embedded: every external effect (the GitHub
HTTP API, the local `git` tool, the filesystem) is abstracted by an explicit
environment record whose fields say how the external call would behave, and
each Python function becomes a pure Lean function from that environment (and
its arguments) to the result dict it returns, modelled as a Lean structure
whose optional fields are `Option` (`none` = key absent from the dict).
-/

namespace RepoTool

/-! ## Data model: protection rule sets (github_client.py, lines 271-300) -/

/-- The `required_pull_request_reviews` sub-dict of a protection rule set. -/
structure ReviewPolicy where
  required_approving_review_count : Nat
  dismiss_stale_reviews : Bool
  require_code_owner_reviews : Bool
  deriving Repr, DecidableEq

/-- A branch-protection rule dict as built by
`GitHubClient.get_branch_protection_rules`.  `restrictions` is always `None`
in the source; it is kept as an (always-`none`) field for fidelity. -/
structure ProtectionRuleSet where
  enforce_admins : Bool
  required_pull_request_reviews : Option ReviewPolicy
  restrictions : Option Unit
  allow_force_pushes : Bool
  allow_deletions : Bool
  deriving Repr, DecidableEq

/-- Embedding of `GitHubClient.get_branch_protection_rules` (github_client.py
lines 271-300).  The Python function returns a dict; the empty dict returned
for an unknown `branch_type` is modelled as `none`. -/
def get_branch_protection_rules (branch_type : String) : Option ProtectionRuleSet :=
  if branch_type = "main" then
    some { enforce_admins := false
           required_pull_request_reviews :=
             some { required_approving_review_count := 1
                    dismiss_stale_reviews := true
                    require_code_owner_reviews := true }
           restrictions := none
           allow_force_pushes := false
           allow_deletions := false }
  else if branch_type = "safe" then
    -- source comment: "Same rules as main for *safe* branches"
    some { enforce_admins := false
           required_pull_request_reviews :=
             some { required_approving_review_count := 1
                    dismiss_stale_reviews := true
                    require_code_owner_reviews := true }
           restrictions := none
           allow_force_pushes := false
           allow_deletions := false }
  else
    none

/-- Spec vocabulary: `requireApprovals` of a (possibly empty) rule set. -/
def ruleRequireApprovals (r : Option ProtectionRuleSet) : Nat :=
  match r with
  | some rs =>
    match rs.required_pull_request_reviews with
    | some pr => pr.required_approving_review_count
    | none => 0
  | none => 0

/-- Spec vocabulary: `enforceForAdmins` of a (possibly empty) rule set. -/
def ruleEnforceForAdmins (r : Option ProtectionRuleSet) : Bool :=
  match r with
  | some rs => rs.enforce_admins
  | none => false

/-! ## VersionControlDriver: `GitHubClient.push_to_repository`
(github_client.py, lines 63-113) -/

/-- Abstract state of the local working copy manipulated by
`push_to_repository`: whether a `.git` directory exists, the configured
`origin` URL, whether the tree has uncommitted (staged or modified) changes,
whether there are untracked files, and how many commits exist. -/
structure WorkingCopy where
  initialized : Bool
  originUrl : Option String
  dirty : Bool
  untracked : Bool
  commits : Nat
  deriving Repr, DecidableEq

/-- One attempt to push to the remote; the source only ever performs plain
(non-forced) pushes, but the spec speaks of a forced retry, so both forms are
representable. -/
inductive PushAttempt
  | normal
  | forced
  deriving Repr, DecidableEq

/-- The result dict of `push_to_repository`. -/
structure PushResult where
  success : Bool
  message : Option String := none
  error : Option String := none
  deriving Repr, DecidableEq

/-- Effect of `repo.git.add(.)`: previously untracked files become staged
changes, so afterwards the index differs from HEAD iff it did before or
there was something untracked. -/
def stageAll (wc : WorkingCopy) : WorkingCopy :=
  { wc with dirty := wc.dirty || wc.untracked, untracked := false }

/-- Embedding of `GitHubClient.push_to_repository` (github_client.py lines
63-113).  `pushRejected` is the external oracle for whether the single
`origin.push` call raises `GitCommandError` (e.g. a rejected ref).  Returns
the final working-copy state, the trace of push attempts actually made, and
the result dict.  The source performs exactly one plain push and has no
forced-push fallback; a raised `GitCommandError` is caught and converted to
a failure record (the error text comes from the external tool and is
modelled by a fixed placeholder). -/
def push_to_repository (wc : WorkingCopy) (repo_url : String)
    (branch : String := "main") (pushRejected : Bool := false) :
    WorkingCopy × List PushAttempt × PushResult :=
  -- Repo.init(local_path) / Repo(local_path)
  let wc0 := { wc with initialized := true }
  -- origin.set_url(repo_url) / repo.create_remote(origin, repo_url)
  let wc1 := { wc0 with originUrl := some repo_url }
  -- repo.git.add(.)
  let wc2 := stageAll wc1
  -- if repo.is_dirty() or repo.untracked_files: repo.index.commit(...)
  let wc3 :=
    if wc2.dirty || wc2.untracked then
      { wc2 with dirty := false, untracked := false, commits := wc2.commits + 1 }
    else wc2
  -- origin.push(refspec=branch:branch); branch only names the refspec
  let _ := branch
  if pushRejected then
    (wc3, [PushAttempt.normal], { success := false, error := some "GitCommandError" })
  else
    (wc3, [PushAttempt.normal],
     { success := true, message := some ("Successfully pushed to " ++ repo_url) })

/-! ## Gateway: branch protection (github_client.py, lines 122-269) and the
protection sub-workflow (repo_creator.py, lines 87-170) -/

/-- Default of `Config.SAFE_BRANCH_PATTERN` (config.py line 20); the
environment override is not modelled since no claim depends on it. -/
def SAFE_BRANCH_PATTERN : String := "*safe*"

/-- A `{"success": ..., "message"/"error": ...}` sub-result dict. -/
structure StepResult where
  success : Bool
  message : Option String := none
  error : Option String := none
  deriving Repr, DecidableEq

/-- Embedding of `GitHubClient.create_branch_protection` (github_client.py
lines 122-179).  `repoFound` abstracts `get_repository`; `putStatus` is the
HTTP status of the protection PUT.  The `protection_rules` argument only
shapes the request payload, never the returned record. -/
def create_branch_protection (repoFound : Bool) (putStatus : Nat)
    (repo_name branch : String) (_rules : Option ProtectionRuleSet) : StepResult :=
  if !repoFound then
    { success := false, error := some ("Repository " ++ repo_name ++ " not found") }
  else if putStatus = 200 then
    { success := true, message := some ("Branch protection applied to " ++ branch) }
  else
    { success := false, error := some ("HTTP " ++ toString putStatus) }

/-- The `results` dict assembled by `create_branch_protection_rules`. -/
structure ProtectionResults where
  main : StepResult
  safe_branch : StepResult
  safe_pattern : StepResult
  deriving Repr, DecidableEq

/-- The result dict of `create_branch_protection_rules` (and hence of
`_apply_branch_protections`). -/
structure ProtectionOutcome where
  success : Bool
  results : Option ProtectionResults := none
  message : Option String := none
  error : Option String := none
  deriving Repr, DecidableEq

/-- External behaviour seen by `create_branch_protection_rules`: whether
`get_repository` finds the repository, and the HTTP statuses of the two
protection PUTs it performs (on `main` and on `safe`). -/
structure ProtectEnv where
  repoFound : Bool
  mainPutStatus : Nat
  safePutStatus : Nat
  deriving Repr, DecidableEq

/-- Embedding of `GitHubClient.create_branch_protection_rules`
(github_client.py lines 181-269).  Note that the aggregate record returned
at lines 258-262 has `success: True` unconditionally once the repository was
found: the per-step outcomes collected in `results` never influence it. -/
def create_branch_protection_rules (env : ProtectEnv) (repo_name : String) :
    ProtectionOutcome :=
  if !env.repoFound then
    { success := false, error := some ("Repository " ++ repo_name ++ " not found") }
  else
    let mainStep : StepResult :=
      if env.mainPutStatus = 200 then
        { success := true, message := some "Main branch protected" }
      else
        { success := false, error := some ("HTTP " ++ toString env.mainPutStatus) }
    let safeStep : StepResult :=
      if env.safePutStatus = 200 then
        { success := true, message := some "Safe branch protected" }
      else
        { success := false, error := some ("HTTP " ++ toString env.safePutStatus) }
    let patternStep : StepResult :=
      { success := true
        message := some (SAFE_BRANCH_PATTERN ++
          " pattern configured - create branch protection rule manually in GitHub UI") }
    { success := true
      results := some { main := mainStep, safe_branch := safeStep, safe_pattern := patternStep }
      message := some "Branch protection setup completed" }

/-- External behaviour seen by `_create_and_protect_safe_branch`: whether the
repository is found, whether the ref-creation/emptying git-object operations
(get_branch, create_git_ref, create_git_tree, create_git_commit, ref edit —
repo_creator.py lines 123-145) all succeed, and the HTTP status of the
protection PUT on the `safe` branch. -/
structure SafeBranchEnv where
  repoFound : Bool
  refOpsOk : Bool
  safeProtectStatus : Nat
  deriving Repr, DecidableEq

/-- Embedding of `RepositoryCreator._create_and_protect_safe_branch`
(repo_creator.py lines 112-170).  A failure of the ref operations raises an
exception that the surrounding try/except converts into a failure record. -/
def create_and_protect_safe_branch (env : SafeBranchEnv) (repo_name : String) :
    StepResult :=
  if !env.repoFound then
    { success := false, error := some ("Repository " ++ repo_name ++ " not found") }
  else if !env.refOpsOk then
    { success := false, error := some "safe branch ref operation raised" }
  else
    let safe_protection :=
      create_branch_protection env.repoFound env.safeProtectStatus repo_name "safe"
        (get_branch_protection_rules "safe")
    if safe_protection.success then
      { success := true, message := some "Safe branch created and protected" }
    else
      { success := false
        error := some ("Failed to protect safe branch: " ++
          (safe_protection.error.getD "Unknown error")) }

/-- Combined environment of the protection sub-workflow. -/
structure ApplyEnv where
  protectEnv : ProtectEnv
  safeEnv : SafeBranchEnv
  deriving Repr, DecidableEq

/-- Embedding of `RepositoryCreator._apply_branch_protections`
(repo_creator.py lines 87-110; Python name `_apply_branch_protections`).
It returns the result of `create_branch_protection_rules` unchanged; the
result of the safe-branch sub-step is only logged and dropped. -/
def apply_branch_protections (env : ApplyEnv) (repo_name : String) :
    ProtectionOutcome :=
  let result := create_branch_protection_rules env.protectEnv repo_name
  let _safe_branch_result := create_and_protect_safe_branch env.safeEnv repo_name
  result

/-- Success flag of the `main`-protection step recorded inside a
`ProtectionOutcome` (spec step 1 of the protection sub-workflow). -/
def mainStepSuccess (o : ProtectionOutcome) : Bool :=
  match o.results with
  | some r => r.main.success
  | none => false

/-- Success flag of the safe-branch protection PUT performed inside
`create_and_protect_safe_branch` (spec step 4 of the sub-workflow). -/
def safeProtectStepSuccess (env : SafeBranchEnv) (repo_name : String) : Bool :=
  (create_branch_protection env.repoFound env.safeProtectStatus repo_name "safe"
    (get_branch_protection_rules "safe")).success

/-! ## Gateway: `GitHubClient.create_repository` (github_client.py, lines
22-61) and the provisioning orchestrator (repo_creator.py, lines 22-72 and
172-217) -/

/-- The keyword arguments `create_repository` passes to the host's
repository-creation endpoint (`self.user.create_repo(**repo_params)`).
`private` is a Lean keyword, hence `privateFlag`. -/
structure RepoParams where
  name : String
  description : String
  privateFlag : Bool
  auto_init : Bool
  gitignore_template : Option String
  license_template : Option String
  deriving Repr, DecidableEq

/-- The result dict of `create_repository` (the opaque `repo` object of the
success dict is elided; its derived URLs are kept). -/
structure RepoResult where
  success : Bool
  clone_url : Option String := none
  ssh_url : Option String := none
  html_url : Option String := none
  error : Option String := none
  deriving Repr, DecidableEq

/-- External behaviour of the host's repository-creation endpoint: whether
it accepts the request, and the URLs (on success) or error text (on
rejection) it reports. -/
structure HostEnv where
  createOk : Bool
  clone_url : String
  ssh_url : String
  html_url : String
  createError : String
  deriving Repr, DecidableEq

/-- Embedding of `GitHubClient.create_repository` (github_client.py lines
22-61), with the source's default argument values.  Returns both the
parameter dict actually sent to the host and the result dict, so that
invariants about what the orchestrator requests (e.g. `auto_init`) are
expressible. -/
def create_repository (env : HostEnv) (name : String) (description : String := "")
    (privateFlag : Bool := false) (auto_init : Bool := true)
    (gitignore_template : Option String := none)
    (license_template : Option String := none) : RepoParams × RepoResult :=
  let repo_params : RepoParams :=
    { name, description, privateFlag, auto_init, gitignore_template, license_template }
  if env.createOk then
    (repo_params,
     { success := true, clone_url := some env.clone_url,
       ssh_url := some env.ssh_url, html_url := some env.html_url })
  else
    (repo_params, { success := false, error := some env.createError })

/-- Default of `Config.DEFAULT_DESCRIPTION` (config.py line 17). -/
def DEFAULT_DESCRIPTION : String := "Created with GitHub Repo Creator"

/-- One call the orchestrator makes to its collaborators, recorded in order
of execution. -/
inductive Call
  | createRepository (p : RepoParams)
  | pushToRepository (local_path repo_url : String)
  | applyBranchProtections (repo_name : String)
  deriving Repr, DecidableEq

/-- The success record returned by `create_repository_with_files` /
`create_from_template` (the opaque `repository` object is elided;
`local_path` is present only in the former, `template_path` only in the
latter). -/
structure SuccessRecord where
  success : Bool
  clone_url : String
  html_url : String
  local_path : Option String := none
  template_path : Option String := none
  branch_protection : ProtectionOutcome
  message : String
  deriving Repr, DecidableEq

/-- The possible result dict shapes of the two provisioning workflows: the
`create_repository` failure dict returned verbatim, the
`push_to_repository` failure dict returned verbatim, the template-missing
precondition dict `{"success": False, "error": ...}` (repo_creator.py lines
181-185), or the full success record. -/
inductive ProvisionOutcome
  | repoFailure (r : RepoResult)
  | pushFailure (r : PushResult)
  | templateMissing (error : String)
  | ok (r : SuccessRecord)
  deriving Repr, DecidableEq

/-- The `success` entry of whichever dict shape was returned. -/
def ProvisionOutcome.successFlag : ProvisionOutcome → Bool
  | .repoFailure r => r.success
  | .pushFailure r => r.success
  | .templateMissing _ => false
  | .ok r => r.success

/-- The `branch_protection` entry: present (`some`) only in the success
record; `none` models the key being absent from the returned dict. -/
def ProvisionOutcome.branchProtection : ProvisionOutcome → Option ProtectionOutcome
  | .ok r => some r.branch_protection
  | _ => none

/-- The `error` entry of whichever dict shape was returned. -/
def ProvisionOutcome.errorField : ProvisionOutcome → Option String
  | .repoFailure r => r.error
  | .pushFailure r => r.error
  | .templateMissing e => some e
  | .ok _ => none

/-- Environment of `create_repository_with_files`: the host's behaviour for
repository creation, the initial local working-copy state, the push oracle,
and the protection sub-workflow's environment. -/
structure OrchEnv where
  host : HostEnv
  wc : WorkingCopy
  pushRejected : Bool
  applyEnv : ApplyEnv
  deriving Repr, DecidableEq

/-- Embedding of `RepositoryCreator.create_repository_with_files`
(repo_creator.py lines 22-72).  The local file materialization
(`_create_local_files`) is a purely local filesystem effect with no bearing
on the returned record and is not modelled.  Returns the result dict and the
ordered trace of collaborator calls. -/
def create_repository_with_files (env : OrchEnv) (repo_name local_path : String)
    (description : String := "") (privateFlag : Bool := false) :
    ProvisionOutcome × List Call :=
  -- description=description or Config.DEFAULT_DESCRIPTION (Python falsy "")
  let d := if description = "" then DEFAULT_DESCRIPTION else description
  let pr := create_repository env.host repo_name d privateFlag
  let repo_params := pr.1
  let repo_result := pr.2
  if !repo_result.success then
    (.repoFailure repo_result, [Call.createRepository repo_params])
  else
    let url := repo_result.clone_url.getD ""
    let push_result := (push_to_repository env.wc url "main" env.pushRejected).2.2
    if !push_result.success then
      (.pushFailure push_result,
       [Call.createRepository repo_params, Call.pushToRepository local_path url])
    else
      let protection_result := apply_branch_protections env.applyEnv repo_name
      (.ok { success := true
             clone_url := url
             html_url := repo_result.html_url.getD ""
             local_path := some local_path
             branch_protection := protection_result
             message := "Repository " ++ repo_name ++
               " created, pushed, and protected successfully!" },
       [Call.createRepository repo_params, Call.pushToRepository local_path url,
        Call.applyBranchProtections repo_name])

/-- Environment of `create_from_template`: additionally whether
`os.path.exists(template_path)` holds. -/
structure TemplateEnv where
  templateExists : Bool
  host : HostEnv
  wc : WorkingCopy
  pushRejected : Bool
  applyEnv : ApplyEnv
  deriving Repr, DecidableEq

/-- Embedding of `RepositoryCreator.create_from_template` (repo_creator.py
lines 172-217): a precondition check on `template_path`, then the same
sequence as `create_repository_with_files` but publishing from
`template_path`. -/
def create_from_template (env : TemplateEnv) (repo_name template_path : String)
    (description : String := "") (privateFlag : Bool := false) :
    ProvisionOutcome × List Call :=
  if !env.templateExists then
    (.templateMissing ("Template path does not exist: " ++ template_path), [])
  else
    let d := if description = "" then DEFAULT_DESCRIPTION else description
    let pr := create_repository env.host repo_name d privateFlag
    let repo_params := pr.1
    let repo_result := pr.2
    if !repo_result.success then
      (.repoFailure repo_result, [Call.createRepository repo_params])
    else
      let url := repo_result.clone_url.getD ""
      let push_result := (push_to_repository env.wc url "main" env.pushRejected).2.2
      if !push_result.success then
        (.pushFailure push_result,
         [Call.createRepository repo_params, Call.pushToRepository template_path url])
      else
        let protection_result := apply_branch_protections env.applyEnv repo_name
        (.ok { success := true
               clone_url := url
               html_url := repo_result.html_url.getD ""
               template_path := some template_path
               branch_protection := protection_result
               message := "Repository " ++ repo_name ++
                 " created from template, pushed, and protected successfully!" },
         [Call.createRepository repo_params, Call.pushToRepository template_path url,
          Call.applyBranchProtections repo_name])

/-- True when every `createRepository` call in a trace requested host-side
auto-initialization. -/
def callsAutoInit (cs : List Call) : Bool :=
  cs.all fun c =>
    match c with
    | Call.createRepository p => p.auto_init
    | _ => true

/-! ## Config attribute surface (config.py, lines 8-28) and the two CLI
paths that call the undefined `Config.get_safe_pattern_core`
(main.py, lines 202-219 and 240-248) -/

namespace Config

/-- The complete list of attributes the `Config` class body defines
(config.py lines 8-28): five class attributes and one classmethod.  Python
attribute lookup on `Config` succeeds exactly for these names (object/type
dunder attributes aside, which no code here touches). -/
def attrNames : List String :=
  ["GITHUB_TOKEN", "GITHUB_USERNAME", "DEFAULT_PRIVATE", "DEFAULT_DESCRIPTION",
   "SAFE_BRANCH_PATTERN", "validate"]

/-- Whether Python attribute lookup `Config.<name>` succeeds. -/
def hasAttr (name : String) : Bool := attrNames.contains name

end Config

/-- Result of evaluating a Python expression that may raise
`AttributeError`. -/
inductive PyResult (α : Type)
  | ok (a : α)
  | attributeError (missingAttr : String)
  deriving Repr, DecidableEq

/-- Character-list version of Python's `pat in hay` substring test. -/
def charsHavePrefix : List Char → List Char → Bool
  | [], _ => true
  | _ :: _, [] => false
  | p :: ps, h :: hs => p = h && charsHavePrefix ps hs

/-- Substring containment on character lists. -/
def charsContain (hay pat : List Char) : Bool :=
  match hay with
  | [] => pat.isEmpty
  | _ :: t => charsHavePrefix pat hay || charsContain t pat

/-- Python's `pat in hay` on strings. -/
def strContains (hay pat : String) : Bool :=
  charsContain hay.toList pat.toList

/-- Evaluation of the expression `Config.get_safe_pattern_core()`: the
attribute lookup consults the class body; `Config` defines no attribute of
that name, so the call raises `AttributeError`.  (The `ok` arm is
unreachable — no method body exists in the source to model — and carries a
vacuous value.) -/
def callGetSafePatternCore : PyResult String :=
  if Config.hasAttr "get_safe_pattern_core" then PyResult.ok ""
  else PyResult.attributeError "get_safe_pattern_core"

/-- The safe-pattern label check of the `create-branch` CLI command
(main.py line 214): `Config.get_safe_pattern_core() in branch_name.lower()`. -/
def safePatternLabelCheck (branch_name : String) : PyResult Bool :=
  match callGetSafePatternCore with
  | .attributeError n => .attributeError n
  | .ok core => .ok (strContains branch_name.toLower core)

/-- The branch filter of the `protect-safe-branches` CLI command (main.py
line 242): the list comprehension evaluates
`Config.get_safe_pattern_core() in branch.name.lower()` once per branch, so
with a non-empty branch list the first evaluation raises. -/
def safeBranchFilter : List String → PyResult (List String)
  | [] => .ok []
  | b :: rest =>
    match callGetSafePatternCore with
    | .attributeError n => .attributeError n
    | .ok core =>
      match safeBranchFilter rest with
      | .attributeError n => .attributeError n
      | .ok tail => .ok (if strContains b.toLower core then b :: tail else tail)

/-- External behaviour seen by the `create-branch` CLI command: whether the
repository is found and whether `create_git_ref` succeeds. -/
structure CreateBranchEnv where
  repoFound : Bool
  refCreateOk : Bool
  deriving Repr, DecidableEq

/-- Exit code of the `create-branch` CLI command (main.py lines 187-225).
After a successful ref creation it evaluates the safe-pattern label check;
an `AttributeError` there is caught by the surrounding generic handler,
which prints a failure and exits 1.  Were the check to complete, the command
would exit 0 whatever the label outcome. -/
def create_branch (env : CreateBranchEnv) (_repo_name branch_name : String) : Nat :=
  if !env.repoFound then 1
  else if !env.refCreateOk then 1
  else
    match safePatternLabelCheck branch_name with
    | .attributeError _ => 1
    | .ok _ => 0

/-- Exit code of the `protect-safe-branches` CLI command (main.py lines
227-273) up to and including the branch filter; an `AttributeError` raised
by the filter is caught by the generic handler, which exits 1.  The
per-branch protection loop past the filter is not claim-relevant and is
collapsed to exit code 0. -/
def protect_safe_branches (repoFound : Bool) (branches : List String) : Nat :=
  if !repoFound then 1
  else
    match safeBranchFilter branches with
    | .attributeError _ => 1
    | .ok _ => 0

/-- Associativity of string concatenation, needed to locate a literal
substring inside a concatenated error message. -/
theorem strAppendAssoc (a b c : String) : a ++ b ++ c = a ++ (b ++ c) := by
  rcases a with ⟨a⟩
  rcases b with ⟨b⟩
  rcases c with ⟨c⟩
  show String.mk (a ++ b ++ c) = String.mk (a ++ (b ++ c))
  rw [List.append_assoc]

/-- The template-missing error message splits around its literal
`does not exist` fragment, whatever the offending path. -/
theorem template_error_split (p : String) :
    "Template path does not exist: " ++ p =
      "Template path " ++ ("does not exist" ++ (": " ++ p)) := by
  have h : "Template path does not exist: " =
      "Template path " ++ "does not exist" ++ ": " := by decide
  rw [h, strAppendAssoc, strAppendAssoc]

/-! ## Claim theorems -/

/-- C1 counterexample: the claimed strictness invariant fails on the code —
`rulesFor("safe")` requires only 1 approval (not ≥ 2) and has
`enforceForAdmins` false (not true). -/
theorem C1_counterexample :
    ¬ (2 ≤ ruleRequireApprovals (get_branch_protection_rules "safe") ∧
       ruleEnforceForAdmins (get_branch_protection_rules "safe") = true ∧
       ruleEnforceForAdmins (get_branch_protection_rules "main") = false) := by
  decide

/-- C1 (amended): the two canonical rule sets returned by
`get_branch_protection_rules` are identical — both require exactly 1
approval (so `safe`'s count is ≥ `main`'s only with equality) and both have
`enforceForAdmins` false. -/
theorem C1_amended :
    get_branch_protection_rules "safe" = get_branch_protection_rules "main" ∧
    ruleRequireApprovals (get_branch_protection_rules "safe") = 1 ∧
    ruleRequireApprovals (get_branch_protection_rules "main") = 1 ∧
    ruleEnforceForAdmins (get_branch_protection_rules "safe") = false ∧
    ruleEnforceForAdmins (get_branch_protection_rules "main") = false := by
  decide

/-- C2 counterexample: on a rejected push, `push_to_repository` makes no
forced push attempt at all — the trace of the run in which the single push
is rejected contains no forced attempt, and the failure is surfaced from
that first (and only) attempt. -/
theorem C2_counterexample :
    PushAttempt.forced ∉
      (push_to_repository ⟨false, none, true, true, 0⟩ "https://host/r.git" "main" true).2.1 ∧
    (push_to_repository ⟨false, none, true, true, 0⟩ "https://host/r.git" "main" true).2.2.success
      = false := by
  decide

/-- C2 (amended): when the push of the branch to origin is rejected,
`push_to_repository` performs exactly one plain push attempt, retries
nothing (forced or otherwise), and surfaces that first rejection directly
as an OutcomeRecord with success false. -/
theorem C2_amended (wc : WorkingCopy) (url branch : String) :
    (push_to_repository wc url branch true).2.1 = [PushAttempt.normal] ∧
    (push_to_repository wc url branch true).2.2.success = false := by
  constructor <;> rfl

/-- C3 counterexample: with the repository found but both the `main`
protection PUT and the safe-branch protection PUT failing (HTTP 403), the
aggregate of `_apply_branch_protections` still reports success — refuting
"success iff step 1 and step 4 succeeded". -/
theorem C3_counterexample :
    ¬ (((apply_branch_protections ⟨⟨true, 403, 403⟩, ⟨true, true, 403⟩⟩ "demo").success = true) ↔
       (mainStepSuccess (create_branch_protection_rules ⟨true, 403, 403⟩ "demo") = true ∧
        safeProtectStepSuccess ⟨true, true, 403⟩ "demo" = true)) := by
  decide

/-- C3 (amended): whenever the repository lookup succeeds, the aggregate of
`_apply_branch_protections` reports success unconditionally — independent of
the outcomes of the main-protection, ref-creation/emptying and
safe-protection steps (in particular, steps 2-3 failures indeed never flip
it, but neither do failures of steps 1 and 4). -/
theorem C3_amended (env : ApplyEnv) (se : SafeBranchEnv) (repo_name : String)
    (h : env.protectEnv.repoFound = true) :
    (apply_branch_protections env repo_name).success = true ∧
    apply_branch_protections ⟨env.protectEnv, se⟩ repo_name =
      apply_branch_protections env repo_name := by
  constructor
  · simp [apply_branch_protections, create_branch_protection_rules, h]
  · rfl

/-- C3 witness: the amended theorem instantiated at a concrete environment. -/
theorem C3_witness :
    (apply_branch_protections ⟨⟨true, 200, 200⟩, ⟨true, true, 200⟩⟩ "demo").success = true ∧
    apply_branch_protections ⟨⟨true, 200, 200⟩, ⟨false, false, 0⟩⟩ "demo" =
      apply_branch_protections ⟨⟨true, 200, 200⟩, ⟨true, true, 200⟩⟩ "demo" :=
  C3_amended ⟨⟨true, 200, 200⟩, ⟨true, true, 200⟩⟩ ⟨false, false, 0⟩ "demo" (by decide)

/-- C4: once repository creation and publish have succeeded,
`create_repository_with_files` reports overall success with the protection
sub-workflow's outcome attached under `branch_protection`, whatever that
outcome was. -/
theorem C4_protection_nonfatal (env : OrchEnv) (repo_name local_path d : String)
    (pv : Bool) (h1 : env.host.createOk = true) (h2 : env.pushRejected = false) :
    (create_repository_with_files env repo_name local_path d pv).1.successFlag = true ∧
    (create_repository_with_files env repo_name local_path d pv).1.branchProtection =
      some (apply_branch_protections env.applyEnv repo_name) := by
  constructor <;>
    simp [create_repository_with_files, create_repository, push_to_repository, h1, h2,
          ProvisionOutcome.successFlag, ProvisionOutcome.branchProtection]

/-- C4 witness: the theorem instantiated at a concrete environment in which
the protection sub-workflow fails its protection PUTs. -/
theorem C4_witness :
    (create_repository_with_files
      ⟨⟨true, "c", "s", "h", "e"⟩, ⟨false, none, true, true, 0⟩, false,
       ⟨⟨true, 403, 403⟩, ⟨true, true, 403⟩⟩⟩ "demo" "/tmp/demo" "" false).1.successFlag
      = true ∧
    (create_repository_with_files
      ⟨⟨true, "c", "s", "h", "e"⟩, ⟨false, none, true, true, 0⟩, false,
       ⟨⟨true, 403, 403⟩, ⟨true, true, 403⟩⟩⟩ "demo" "/tmp/demo" "" false).1.branchProtection
      = some (apply_branch_protections ⟨⟨true, 403, 403⟩, ⟨true, true, 403⟩⟩ "demo") :=
  C4_protection_nonfatal
    ⟨⟨true, "c", "s", "h", "e"⟩, ⟨false, none, true, true, 0⟩, false,
     ⟨⟨true, 403, 403⟩, ⟨true, true, 403⟩⟩⟩ "demo" "/tmp/demo" "" false
    (by decide) (by decide)

/-- C5: if `create_repository` succeeds but the publish fails, the workflow
returns the publish step's failing record verbatim, with no
`branch_protection` key and without ever invoking the protection
sub-workflow; likewise a `create_repository` failure is returned unchanged
and the trace stops at that single call. -/
theorem C5_early_exit (env1 env2 : OrchEnv) (n1 p1 d1 n2 p2 d2 : String)
    (pv1 pv2 : Bool)
    (h1 : env1.host.createOk = true) (h2 : env1.pushRejected = true)
    (h3 : env2.host.createOk = false) :
    (create_repository_with_files env1 n1 p1 d1 pv1).1 =
      ProvisionOutcome.pushFailure
        (push_to_repository env1.wc env1.host.clone_url "main" true).2.2 ∧
    (create_repository_with_files env1 n1 p1 d1 pv1).1.branchProtection = none ∧
    Call.applyBranchProtections n1 ∉ (create_repository_with_files env1 n1 p1 d1 pv1).2 ∧
    (create_repository_with_files env2 n2 p2 d2 pv2).1 =
      ProvisionOutcome.repoFailure
        (create_repository env2.host n2 (if d2 = "" then DEFAULT_DESCRIPTION else d2) pv2).2 ∧
    (create_repository_with_files env2 n2 p2 d2 pv2).2 =
      [Call.createRepository
        (create_repository env2.host n2 (if d2 = "" then DEFAULT_DESCRIPTION else d2) pv2).1] := by
  refine ⟨?_, ?_, ?_, ?_, ?_⟩ <;>
    simp [create_repository_with_files, create_repository, push_to_repository, h1, h2, h3,
          ProvisionOutcome.branchProtection]

/-- C5 witness: the theorem instantiated at concrete environments (a
rejected push for the first, a rejected repository creation for the
second). -/
theorem C5_witness :
    (create_repository_with_files
      ⟨⟨true, "c", "s", "h", "e"⟩, ⟨false, none, true, true, 0⟩, true,
       ⟨⟨true, 200, 200⟩, ⟨true, true, 200⟩⟩⟩ "demo" "/tmp/demo" "" false).1 =
      ProvisionOutcome.pushFailure
        (push_to_repository ⟨false, none, true, true, 0⟩ "c" "main" true).2.2 ∧
    (create_repository_with_files
      ⟨⟨true, "c", "s", "h", "e"⟩, ⟨false, none, true, true, 0⟩, true,
       ⟨⟨true, 200, 200⟩, ⟨true, true, 200⟩⟩⟩ "demo" "/tmp/demo" "" false).1.branchProtection
      = none ∧
    Call.applyBranchProtections "demo" ∉
      (create_repository_with_files
        ⟨⟨true, "c", "s", "h", "e"⟩, ⟨false, none, true, true, 0⟩, true,
         ⟨⟨true, 200, 200⟩, ⟨true, true, 200⟩⟩⟩ "demo" "/tmp/demo" "" false).2 ∧
    (create_repository_with_files
      ⟨⟨false, "c", "s", "h", "dup"⟩, ⟨false, none, true, true, 0⟩, false,
       ⟨⟨true, 200, 200⟩, ⟨true, true, 200⟩⟩⟩ "demo2" "/tmp/d2" "" false).1 =
      ProvisionOutcome.repoFailure
        (create_repository ⟨false, "c", "s", "h", "dup"⟩ "demo2"
          (if "" = "" then DEFAULT_DESCRIPTION else "") false).2 ∧
    (create_repository_with_files
      ⟨⟨false, "c", "s", "h", "dup"⟩, ⟨false, none, true, true, 0⟩, false,
       ⟨⟨true, 200, 200⟩, ⟨true, true, 200⟩⟩⟩ "demo2" "/tmp/d2" "" false).2 =
      [Call.createRepository
        (create_repository ⟨false, "c", "s", "h", "dup"⟩ "demo2"
          (if "" = "" then DEFAULT_DESCRIPTION else "") false).1] :=
  C5_early_exit
    ⟨⟨true, "c", "s", "h", "e"⟩, ⟨false, none, true, true, 0⟩, true,
     ⟨⟨true, 200, 200⟩, ⟨true, true, 200⟩⟩⟩
    ⟨⟨false, "c", "s", "h", "dup"⟩, ⟨false, none, true, true, 0⟩, false,
     ⟨⟨true, 200, 200⟩, ⟨true, true, 200⟩⟩⟩
    "demo" "/tmp/demo" "" "demo2" "/tmp/d2" "" false false
    (by decide) (by decide) (by decide)

/-- C6: `push_to_repository` is commit-idempotent — the first call commits
exactly when the tree had staged/modified or untracked changes, a second
call on the (now unchanged) resulting state creates zero commits, and both
calls report success when the pushes are accepted. -/
theorem C6_commit_idempotent (wc : WorkingCopy) (url branch : String) :
    ((push_to_repository wc url branch false).1.commits =
       wc.commits + (if (wc.dirty || wc.untracked) then 1 else 0)) ∧
    ((push_to_repository (push_to_repository wc url branch false).1 url branch false).1.commits =
       (push_to_repository wc url branch false).1.commits) ∧
    (push_to_repository wc url branch false).2.2.success = true ∧
    (push_to_repository (push_to_repository wc url branch false).1 url branch false).2.2.success
      = true := by
  rcases wc with ⟨i, o, d, u, c⟩
  cases d <;> cases u <;> simp [push_to_repository, stageAll]

/-- C7: `create_from_template` called when the template path does not exist
returns a failure record whose error message contains "does not exist", and
makes no collaborator call at all. -/
theorem C7_template_missing (env : TemplateEnv) (repo_name template_path d : String)
    (pv : Bool) (h : env.templateExists = false) :
    (create_from_template env repo_name template_path d pv).2 = [] ∧
    (create_from_template env repo_name template_path d pv).1.successFlag = false ∧
    ∃ pre post, (create_from_template env repo_name template_path d pv).1.errorField =
      some (pre ++ ("does not exist" ++ post)) := by
  refine ⟨?_, ?_, "Template path ", ": " ++ template_path, ?_⟩
  · simp [create_from_template, h]
  · simp [create_from_template, h, ProvisionOutcome.successFlag]
  · simp [create_from_template, h, ProvisionOutcome.errorField, template_error_split]

/-- C7 witness: the theorem instantiated at a concrete environment and the
path `/nonexistent`. -/
theorem C7_witness :
    (create_from_template
      ⟨false, ⟨true, "c", "s", "h", "e"⟩, ⟨false, none, true, true, 0⟩, false,
       ⟨⟨true, 200, 200⟩, ⟨true, true, 200⟩⟩⟩ "demo" "/nonexistent" "" false).2 = [] ∧
    (create_from_template
      ⟨false, ⟨true, "c", "s", "h", "e"⟩, ⟨false, none, true, true, 0⟩, false,
       ⟨⟨true, 200, 200⟩, ⟨true, true, 200⟩⟩⟩ "demo" "/nonexistent" "" false).1.successFlag
      = false ∧
    ∃ pre post,
      (create_from_template
        ⟨false, ⟨true, "c", "s", "h", "e"⟩, ⟨false, none, true, true, 0⟩, false,
         ⟨⟨true, 200, 200⟩, ⟨true, true, 200⟩⟩⟩ "demo" "/nonexistent" "" false).1.errorField
        = some (pre ++ ("does not exist" ++ post)) :=
  C7_template_missing
    ⟨false, ⟨true, "c", "s", "h", "e"⟩, ⟨false, none, true, true, 0⟩, false,
     ⟨⟨true, 200, 200⟩, ⟨true, true, 200⟩⟩⟩ "demo" "/nonexistent" "" false (by decide)

/-- C8: `get_branch_protection_rules` is a total pure function — every
classification outside main/safe yields the empty rule set, and the main
and safe classifications always yield these fixed structural contents. -/
theorem C8_rules_total (c : String) (h1 : ¬ c = "main") (h2 : ¬ c = "safe") :
    get_branch_protection_rules c = none ∧
    get_branch_protection_rules "main" =
      some { enforce_admins := false
             required_pull_request_reviews :=
               some { required_approving_review_count := 1
                      dismiss_stale_reviews := true
                      require_code_owner_reviews := true }
             restrictions := none
             allow_force_pushes := false
             allow_deletions := false } ∧
    get_branch_protection_rules "safe" =
      some { enforce_admins := false
             required_pull_request_reviews :=
               some { required_approving_review_count := 1
                      dismiss_stale_reviews := true
                      require_code_owner_reviews := true }
             restrictions := none
             allow_force_pushes := false
             allow_deletions := false } := by
  refine ⟨?_, by decide, by decide⟩
  simp [get_branch_protection_rules, h1, h2]

/-- C8 witness: the theorem instantiated at the unknown classification
`feature`. -/
theorem C8_witness :
    get_branch_protection_rules "feature" = none ∧
    get_branch_protection_rules "main" =
      some { enforce_admins := false
             required_pull_request_reviews :=
               some { required_approving_review_count := 1
                      dismiss_stale_reviews := true
                      require_code_owner_reviews := true }
             restrictions := none
             allow_force_pushes := false
             allow_deletions := false } ∧
    get_branch_protection_rules "safe" =
      some { enforce_admins := false
             required_pull_request_reviews :=
               some { required_approving_review_count := 1
                      dismiss_stale_reviews := true
                      require_code_owner_reviews := true }
             restrictions := none
             allow_force_pushes := false
             allow_deletions := false } :=
  C8_rules_total "feature" (by decide) (by decide)

/-- C9: every `createRepository` invocation either provisioning workflow
makes carries `auto_init = true` (the orchestrator never overrides
`create_repository`'s default), in every environment. -/
theorem C9_auto_init (env1 : OrchEnv) (env2 : TemplateEnv)
    (n1 p1 d1 n2 p2 d2 : String) (pv1 pv2 : Bool) :
    callsAutoInit (create_repository_with_files env1 n1 p1 d1 pv1).2 = true ∧
    callsAutoInit (create_from_template env2 n2 p2 d2 pv2).2 = true := by
  constructor
  · rcases env1 with ⟨⟨co, cu, su, hu, ce⟩, w, pr, ae⟩
    cases co <;> cases pr <;>
      simp [create_repository_with_files, create_repository, push_to_repository,
            callsAutoInit, stageAll]
  · rcases env2 with ⟨te, ⟨co, cu, su, hu, ce⟩, w, pr, ae⟩
    cases te <;> cases co <;> cases pr <;>
      simp [create_from_template, create_repository, push_to_repository,
            callsAutoInit, stageAll]

/-- C10: `Config` defines no attribute `get_safe_pattern_core`, so the
safe-pattern label check of `create-branch` and the branch filter of
`protect-safe-branches` raise `AttributeError` whenever reached, and both
commands exit 1 on every path that reaches the call. -/
theorem C10_missing_attr (env : CreateBranchEnv) (n b br : String)
    (branches : List String)
    (h1 : env.repoFound = true) (h2 : env.refCreateOk = true) :
    Config.hasAttr "get_safe_pattern_core" = false ∧
    safePatternLabelCheck b = PyResult.attributeError "get_safe_pattern_core" ∧
    create_branch env n b = 1 ∧
    safeBranchFilter (br :: branches) = PyResult.attributeError "get_safe_pattern_core" ∧
    protect_safe_branches true (br :: branches) = 1 := by
  refine ⟨by decide, rfl, ?_, rfl, rfl⟩
  simp [create_branch, h1, h2, safePatternLabelCheck, callGetSafePatternCore,
        Config.hasAttr, Config.attrNames]

/-- C10 witness: the theorem instantiated at a concrete environment, branch
names, and a one-element branch list. -/
theorem C10_witness :
    Config.hasAttr "get_safe_pattern_core" = false ∧
    safePatternLabelCheck "my-safe-branch" = PyResult.attributeError "get_safe_pattern_core" ∧
    create_branch ⟨true, true⟩ "demo" "my-safe-branch" = 1 ∧
    safeBranchFilter ("team-safe" :: []) = PyResult.attributeError "get_safe_pattern_core" ∧
    protect_safe_branches true ("team-safe" :: []) = 1 :=
  C10_missing_attr ⟨true, true⟩ "demo" "my-safe-branch" "team-safe" [] (by decide) (by decide)

end RepoTool
